import Mathlib

/-!
Verification development for the Health-Mate medication-adherence core
(backend_fastapi/app): schedule generation, dose-status classification,
stock accounting, the dose ledger, and adherence analytics.

The Python services are shallowly embedded: dictionaries become association
lists, `datetime` values become integer minutes (or seconds-of-day where the
code subtracts two same-day datetimes), floats in percentage computations
become rationals, and fallible operations return `Option`.  Module structure
mirrors the source: `dose_service`, `medication_service`,
`dose_history_service`.
-/

namespace HealthMate

/-! ### String and digit helpers

Models of the Python string operations used by the services
(`s.split(":")`, `int(tok)`, `f"{h:02d}"`). -/

/-- One character is an ASCII digit. -/
def isDigitCh (c : Char) : Bool := decide ('0' ≤ c) && decide (c ≤ '9')

/-- Every character of the list is an ASCII digit. -/
def allDigits (l : List Char) : Bool := l.all isDigitCh

/-- Numeric value of a digit character. -/
def digitVal (c : Char) : Nat := c.toNat - 48

/-- Value of a digit string, as Python `int` on a digit-only token. -/
def digitsToNat (l : List Char) : Nat := l.foldl (fun acc c => 10 * acc + digitVal c) 0

/-- Python `str.split(sep)` for a one-character separator. -/
def splitOnChar (sep : Char) : List Char → List (List Char)
  | [] => [[]]
  | c :: rest =>
    let r := splitOnChar sep rest
    if c = sep then [] :: r
    else
      match r with
      | h :: t => (c :: h) :: t
      | [] => [[c]]

/-- Parse `"HH:MM"` as `int` on the two `":"`-separated tokens would
(`hour, minute = map(int, s.split(":"))`); `none` models the `ValueError`. -/
def parseHM (s : String) : Option (Nat × Nat) :=
  match splitOnChar ':' s.data with
  | [h, m] =>
    if h ≠ [] && m ≠ [] && allDigits h && allDigits m then
      some (digitsToNat h, digitsToNat m)
    else none
  | _ => none

/-- Python `f"{n:02d}"` for `n < 100`. -/
def twoDigitStr (n : Nat) : String :=
  ⟨[Char.ofNat (48 + n / 10), Char.ofNat (48 + n % 10)]⟩

/-- Clock value (minutes after midnight) of an `"HH:MM"` slot string. -/
def slotMinutes (s : String) : Nat :=
  match parseHM s with
  | some (h, m) => h * 60 + m
  | none => 0

/-- The list of slot strings is strictly ascending in clock order. -/
def sortedAscClockB : List String → Bool
  | [] => true
  | [_] => true
  | a :: b :: rest => decide (slotMinutes a < slotMinutes b) && sortedAscClockB (b :: rest)

/-- Python slice `l[:n]` (a negative `n` drops elements from the end). -/
def pySliceTo {α : Type} (l : List α) (n : Int) : List α :=
  if 0 ≤ n then l.take n.toNat else l.take (l.length - (-n).toNat)

/-! ### `app/models/dose_schedule.py` — constants and the status enum -/

/-- Status of a scheduled dose (`DoseStatus`). -/
inductive DoseStatus
  | pending
  | available
  | taken
  | late
  | missed
deriving DecidableEq, Repr

/-- `TIMING_PRESETS`: a key maps to a single time, a list of times
(`"With meals"`), or Python `None` (`"As needed"`). -/
def TIMING_PRESETS : List (String × Option (String ⊕ List String)) :=
  [("Before breakfast", some (Sum.inl "07:00")),
   ("After breakfast", some (Sum.inl "08:30")),
   ("Before lunch", some (Sum.inl "11:30")),
   ("After lunch", some (Sum.inl "13:00")),
   ("Before dinner", some (Sum.inl "18:30")),
   ("After dinner", some (Sum.inl "19:30")),
   ("Before bed", some (Sum.inl "22:00")),
   ("With meals", some (Sum.inr ["08:00", "13:00", "19:00"])),
   ("Empty stomach", some (Sum.inl "06:30")),
   ("As needed", none)]

/-- `DEFAULT_SCHEDULES`: default slot lists by frequency. -/
def DEFAULT_SCHEDULES : List (Int × List String) :=
  [(1, ["08:00"]),
   (2, ["08:00", "20:00"]),
   (3, ["08:00", "14:00", "22:00"]),
   (4, ["08:00", "12:00", "18:00", "22:00"]),
   (5, ["06:00", "10:00", "14:00", "18:00", "22:00"]),
   (6, ["06:00", "10:00", "14:00", "18:00", "22:00", "02:00"])]

def EARLY_WINDOW : Int := 30
def ON_TIME_WINDOW : Int := 30
def LATE_WINDOW : Int := 120
def MISSED_THRESHOLD : Int := 120

namespace dose_service

/-! ### `app/services/user/dose_service.py` -/

/-- First `":"`-separated token of a preset time string, as
`int(preset.split(":")[0])`. -/
def presetBaseHour (s : String) : Nat :=
  match splitOnChar ':' s.data with
  | h :: _ => digitsToNat h
  | [] => 0

/-- `generate_schedule_times(frequency, timing)`: preset-driven schedule
generation with fallback to `DEFAULT_SCHEDULES`.  A branch of the preset
`if`-chain that returns nothing falls through to the default return, modelled
by the inner `Option`. -/
def generate_schedule_times (frequency : Int) (timing : Option String) : List String :=
  let fromPreset : Option (List String) :=
    match timing with
    | none => none
    | some t =>
      if t = "" then none
      else
        match TIMING_PRESETS.lookup t with
        | none => none
        | some none => none
        | some (some (Sum.inr preset)) => some (pySliceTo preset frequency)
        | some (some (Sum.inl preset)) =>
          if frequency = 1 then some [preset]
          else if frequency = 2 then
            some [preset, twoDigitStr ((presetBaseHour preset + 12) % 24) ++ ":00"]
          else if 3 ≤ frequency then
            some ((DEFAULT_SCHEDULES.lookup frequency).getD
              ((DEFAULT_SCHEDULES.lookup 3).getD []))
          else none
  match fromPreset with
  | some r => r
  | none => (DEFAULT_SCHEDULES.lookup frequency).getD ((DEFAULT_SCHEDULES.lookup 1).getD [])

/-- `calculate_dose_status` on parsed times.  `now` is the current datetime
as seconds of the day; the scheduled and taken datetimes are rebuilt from the
current day with `second=0, microsecond=0`, so only their `"HH:MM"` values
matter.  `int(td.total_seconds() / 60)` truncates toward zero: `Int.tdiv`. -/
def calculateDoseStatusHM (sh sm : Nat) (now : Nat) (takenAt : Option (Nat × Nat)) :
    DoseStatus × Int :=
  let scheduled_dt : Nat := sh * 3600 + sm * 60
  match takenAt with
  | some (th, tm) =>
    let taken_dt : Nat := th * 3600 + tm * 60
    let diff : Int := ((taken_dt : Int) - (scheduled_dt : Int)).tdiv 60
    if -EARLY_WINDOW ≤ diff ∧ diff ≤ ON_TIME_WINDOW then (DoseStatus.taken, diff)
    else (DoseStatus.late, diff)
  | none =>
    let diff : Int := ((now : Int) - (scheduled_dt : Int)).tdiv 60
    if diff < -EARLY_WINDOW then (DoseStatus.pending, diff)
    else if diff ≤ MISSED_THRESHOLD then (DoseStatus.available, diff)
    else (DoseStatus.missed, diff)

/-- `calculate_dose_status(scheduled_time, current_time, taken_at)` on the
string inputs; `none` models the exception raised on a malformed time string
or an out-of-range `replace` argument. -/
def calculate_dose_status (scheduled_time : String) (current_time : Nat)
    (taken_at : Option String) : Option (DoseStatus × Int) :=
  match parseHM scheduled_time with
  | none => none
  | some (sh, sm) =>
    if sh ≤ 23 ∧ sm ≤ 59 then
      match taken_at with
      | none => some (calculateDoseStatusHM sh sm current_time none)
      | some ta =>
        match parseHM ta with
        | none => none
        | some (th, tm) =>
          if th ≤ 23 ∧ tm ≤ 59 then
            some (calculateDoseStatusHM sh sm current_time (some (th, tm)))
          else none
    else none

end dose_service

namespace medication_service

/-! ### `app/services/user/medication_service.py` — pure stock helpers -/

/-- `calculate_stock_days_remaining(current_stock, frequency, dose_per_intake)`.
`not current_stock` / `not frequency` are Python falsiness tests on ints;
`//` is floor division (`Int.fdiv`). -/
def calculate_stock_days_remaining (current_stock frequency : Int)
    (dose_per_intake : Int := 1) : Int :=
  if current_stock = 0 ∨ frequency = 0 then 0
  else
    let daily_consumption := frequency * dose_per_intake
    if daily_consumption ≤ 0 then 0
    else current_stock.fdiv daily_consumption

/-- `calculate_stock_status(current_stock, total_stock, frequency,
dose_per_intake)`; `total_stock` is unused by the source body. -/
def calculate_stock_status (current_stock : Option Int) (total_stock : Option Int)
    (frequency : Int := 1) (dose_per_intake : Int := 1) : String :=
  match current_stock with
  | none => "unknown"
  | some s =>
    if s ≤ 0 then "out"
    else
      let daily0 := frequency * dose_per_intake
      let daily_consumption := if daily0 ≤ 0 then 1 else daily0
      let days_remaining := s.fdiv daily_consumption
      if days_remaining ≤ 3 then "critical"
      else if days_remaining ≤ 7 then "low"
      else if days_remaining ≤ 14 then "medium"
      else "healthy"

end medication_service

namespace dose_history_service

/-! ### `app/services/dose_history_service.py` — the dose ledger

The collection holds one record per document; `update_one(filter, {$set:
record}, upsert=True)` is modelled as replace-first-match-or-append.
Datetimes on the timeline (`actual_time`, the parsed `scheduled_at`) are
minutes; `created_at`/`updated_at` take the caller-supplied `now`.

The `services/user/` twin of this module is declared by the package
`__init__` but only the `services/` copy is in the tree; both claim sources
cite this copy, which is embedded here. -/

/-- Arguments of one `log_dose_event` call. -/
structure DoseHistoryEvent where
  user_id : String
  medication_id : String
  medication_name : String
  date : String
  time_slot : String
  status : String
  actual_time : Option Int
  notes : Option String
  now : Int
deriving DecidableEq, Repr

/-- One stored ledger record (the `$set` document of `log_dose_event`). -/
structure DoseHistoryRecord where
  user_id : String
  medication_id : String
  medication_name : String
  date : String
  time_slot : String
  status : String
  actual_time : Option Int
  was_late : Bool
  notes : Option String
  scheduled_at : Option Nat
  created_at : Int
  updated_at : Int
deriving DecidableEq, Repr

/-- A 1–`maxLen`-digit numeric token with value in `[lo, hi]`, as the
`strptime` field regexes accept (`%m`, `%d`, `%H`, `%M`). -/
def parseNumTok (l : List Char) (maxLen lo hi : Nat) : Option Nat :=
  if l ≠ [] ∧ l.length ≤ maxLen ∧ allDigits l = true then
    let v := digitsToNat l
    if lo ≤ v ∧ v ≤ hi then some v else none
  else none

/-- Gregorian leap-year rule (as `datetime` validates day-of-month). -/
def isLeapYear (y : Nat) : Bool :=
  y % 4 = 0 && (y % 100 ≠ 0 || y % 400 = 0)

/-- Number of days in a month. -/
def daysInMonth (y m : Nat) : Nat :=
  if m = 2 then (if isLeapYear y then 29 else 28)
  else if m = 4 ∨ m = 6 ∨ m = 9 ∨ m = 11 then 30
  else 31

/-- Days since 0000-03-01 of a civil date with `y ≥ 1` (standard
days-from-civil computation), so datetime comparison is integer
comparison. -/
def daysFromCivil (y m d : Nat) : Nat :=
  let yy := y - (if m ≤ 2 then 1 else 0)
  let era := yy / 400
  let yoe := yy % 400
  let mp := (m + 9) % 12
  let doy := (153 * mp + 2) / 5 + (d - 1)
  let doe := yoe * 365 + yoe / 4 - yoe / 100 + doy
  era * 146097 + doe

/-- Timeline minute of a civil date-time. -/
def civilToMinutes (y m d hh mm : Nat) : Nat :=
  (daysFromCivil y m d * 24 + hh) * 60 + mm

/-- `datetime.strptime(s, "%Y-%m-%d %H:%M")`: `%Y` is exactly four digits,
the other fields one or two digits within range, and the day must exist in
the month; `none` models the `ValueError`. -/
def strptime_ymd_hm (s : String) : Option Nat :=
  match splitOnChar ' ' s.data with
  | [datePart, timePart] =>
    match splitOnChar '-' datePart, splitOnChar ':' timePart with
    | [ys, ms, ds], [hs, mins] =>
      if ys.length = 4 ∧ allDigits ys = true then
        let y := digitsToNat ys
        match parseNumTok ms 2 1 12, parseNumTok ds 2 1 31,
            parseNumTok hs 2 0 23, parseNumTok mins 2 0 59 with
        | some m, some d, some hh, some mm =>
          if 1 ≤ y ∧ d ≤ daysInMonth y m then some (civilToMinutes y m d hh mm)
          else none
        | _, _, _, _ => none
      else none
    | _, _ => none
  | _ => none

/-- The `was_late` computation of `log_dose_event`: only a `"taken"` status
with an actual time can be late, and only when the actual time exceeds
`strptime(f"{date} {time_slot}")` by strictly more than 30 minutes; a parse
failure leaves it `False`. -/
def wasLateOf (e : DoseHistoryEvent) : Bool :=
  if e.status = "taken" then
    match e.actual_time, strptime_ymd_hm (e.date ++ " " ++ e.time_slot) with
    | some t, some s => decide ((s : Int) + 30 < t)
    | _, _ => false
  else false

/-- The record document built by `log_dose_event` (the source parses
`f"{date} {time_slot}"` twice: once for `was_late`, once for
`scheduled_at`). -/
def mkRecord (e : DoseHistoryEvent) : DoseHistoryRecord :=
  { user_id := e.user_id
    medication_id := e.medication_id
    medication_name := e.medication_name
    date := e.date
    time_slot := e.time_slot
    status := e.status
    actual_time := e.actual_time
    was_late := wasLateOf e
    notes := e.notes
    scheduled_at := strptime_ymd_hm (e.date ++ " " ++ e.time_slot)
    created_at := e.now
    updated_at := e.now }

/-- A stored record matches the composite key of the upsert filter
`(medication_id, date, time_slot)`. -/
def keyMatches (medication_id date time_slot : String) (r : DoseHistoryRecord) : Bool :=
  r.medication_id == medication_id && r.date == date && r.time_slot == time_slot

/-- A call's arguments carry the given composite key. -/
def eventKeyMatches (medication_id date time_slot : String) (e : DoseHistoryEvent) : Bool :=
  e.medication_id == medication_id && e.date == date && e.time_slot == time_slot

/-- `update_one` touches only the first matching document. -/
def updateFirst {α : Type} (p : α → Bool) (v : α) : List α → List α
  | [] => []
  | x :: xs => if p x then v :: xs else x :: updateFirst p v xs

/-- `log_dose_event`: upsert of the record keyed on
`(medication_id, date, time_slot)`. -/
def log_dose_event (history : List DoseHistoryRecord) (e : DoseHistoryEvent) :
    List DoseHistoryRecord :=
  let r := mkRecord e
  if history.any (keyMatches e.medication_id e.date e.time_slot) then
    updateFirst (keyMatches e.medication_id e.date e.time_slot) r history
  else history ++ [r]

/-- Ledger entries under one composite key. -/
def entriesFor (medication_id date time_slot : String) (h : List DoseHistoryRecord) :
    List DoseHistoryRecord :=
  h.filter (keyMatches medication_id date time_slot)

end dose_history_service

/-- Python `round(x, 1)` over the rational model of float percentages
(Python rounds half-to-even; the tie cannot arise in any value this
development evaluates). -/
def round1 (q : ℚ) : ℚ := ((round (q * 10) : ℤ) : ℚ) / 10

/-- `update_one` with a `$set` document: transform the first matching
element. -/
def updateFirstBy {α : Type} (p : α → Bool) (f : α → α) : List α → List α
  | [] => []
  | x :: xs => if p x then f x :: xs else x :: updateFirstBy p f xs

/-- Python dict assignment `d[k] = v` on an insertion-ordered dictionary. -/
def dictInsert (k : String) (v : Bool) : List (String × Bool) → List (String × Bool)
  | [] => [(k, v)]
  | (k', v') :: rest => if k' = k then (k, v) :: rest else (k', v') :: dictInsert k v rest

/-- Lexicographic code-point comparison of character lists (Python string
`<` on ASCII data; `String.lt` itself does not reduce in the kernel). -/
def charListLt : List Char → List Char → Bool
  | [], [] => false
  | [], _ :: _ => true
  | _ :: _, [] => false
  | c :: cs, d :: ds =>
    if c.toNat < d.toNat then true
    else if d.toNat < c.toNat then false
    else charListLt cs ds

/-- Python string `<`. -/
def strLtB (a b : String) : Bool := charListLt a.data b.data

/-- Descending insertion into a descending-sorted list of strings. -/
def insertDescStr (d : String) : List String → List String
  | [] => [d]
  | x :: xs => if strLtB x d then d :: x :: xs else x :: insertDescStr d xs

/-- Sort strings descending (the `$sort: {_id: -1}` of the streak
aggregation; `"YYYY-MM-DD"` strings sort chronologically). -/
def sortDescStr (l : List String) : List String := l.foldr insertDescStr []

/-- Ascending insertion into an ascending-sorted list of strings. -/
def insertAscStr (d : String) : List String → List String
  | [] => [d]
  | x :: xs => if strLtB d x then d :: x :: xs else x :: insertAscStr d xs

/-- Python `sorted` on time-slot strings. -/
def sortAscStr (l : List String) : List String := l.foldr insertAscStr []

namespace dose_history_service

/-! #### Adherence analytics (`get_adherence_stats`, `get_comparison_stats`,
`get_time_of_day_analysis`, `calculate_streak`)

Each operation is modelled on the list of ledger records its date-range
query returns.  The per-medication and per-date breakdown dictionaries of
`get_adherence_stats` are not needed by any claim and are omitted. -/

/-- The loop counters of `get_adherence_stats`. -/
structure AdherCounts where
  total : Nat
  taken : Nat
  missed : Nat
  late : Nat
  skipped : Nat
deriving DecidableEq, Repr

/-- One iteration of the `get_adherence_stats` loop. -/
def adherStep (acc : AdherCounts) (r : DoseHistoryRecord) : AdherCounts :=
  let acc := { acc with total := acc.total + 1 }
  if r.status = "taken" then
    let acc := { acc with taken := acc.taken + 1 }
    if r.was_late then { acc with late := acc.late + 1 } else acc
  else if r.status = "missed" then { acc with missed := acc.missed + 1 }
  else if r.status = "skipped" then { acc with skipped := acc.skipped + 1 }
  else acc

/-- The summary block of `get_adherence_stats`. -/
structure AdherenceSummary where
  total_doses : Nat
  taken : Nat
  missed : Nat
  late : Nat
  skipped : Nat
  adherence_percentage : ℚ
  on_time_percentage : ℚ
deriving DecidableEq, Repr

/-- `get_adherence_stats` on the queried records: percentage is
`taken/total×100` (100 on an empty period), rounded to one decimal. -/
def get_adherence_stats (records : List DoseHistoryRecord) : AdherenceSummary :=
  let c := records.foldl adherStep ⟨0, 0, 0, 0, 0⟩
  let adherence_percentage : ℚ :=
    if 0 < c.total then (c.taken : ℚ) / (c.total : ℚ) * 100 else 100
  { total_doses := c.total
    taken := c.taken
    missed := c.missed
    late := c.late
    skipped := c.skipped
    adherence_percentage := round1 adherence_percentage
    on_time_percentage :=
      round1 (if 0 < c.total then ((c.taken : ℚ) - (c.late : ℚ)) / (c.total : ℚ) * 100
              else 100) }

/-- One week block of `get_comparison_stats`. -/
structure PeriodStats where
  total : Nat
  taken : Nat
  missed : Nat
  adherence_percentage : ℚ
deriving DecidableEq, Repr

/-- `get_comparison_stats.get_period_stats` on the records of one week's
range query: note the empty-period adherence is 0, not 100. -/
def get_period_stats (records : List DoseHistoryRecord) : PeriodStats :=
  let total := records.length
  let taken := (records.filter (fun r => r.status == "taken")).length
  let missed := (records.filter (fun r => r.status == "missed")).length
  { total := total
    taken := taken
    missed := missed
    adherence_percentage :=
      if 0 < total then round1 ((taken : ℚ) / (total : ℚ) * 100) else 0 }

/-- `int(time_slot.split(":")[0])` with the `except` default of 12. -/
def hourOf (time_slot : String) : Nat :=
  match splitOnChar ':' time_slot.data with
  | h :: _ => if h ≠ [] ∧ allDigits h = true then digitsToNat h else 12
  | [] => 12

/-- Time-of-day bucket of a record, by the hour of its slot. -/
def bucketOf (r : DoseHistoryRecord) : String :=
  let hour := hourOf r.time_slot
  if 6 ≤ hour ∧ hour < 12 then "morning"
  else if 12 ≤ hour ∧ hour < 18 then "afternoon"
  else if 18 ≤ hour ∧ hour < 24 then "evening"
  else "night"

/-- One reported bucket of `get_time_of_day_analysis`. -/
structure TimePeriodStat where
  period : String
  total : Nat
  taken : Nat
  missed : Nat
  adherence_percentage : ℚ
  miss_percentage : ℚ
deriving DecidableEq, Repr

/-- `get_time_of_day_analysis` results: only buckets with at least one
record are reported. -/
def get_time_of_day_analysis (records : List DoseHistoryRecord) : List TimePeriodStat :=
  (["morning", "afternoon", "evening", "night"].map fun key =>
    let rs := records.filter (fun r => bucketOf r == key)
    (key, rs.length, (rs.filter (fun r => r.status == "taken")).length,
      (rs.filter (fun r => r.status == "missed")).length)).filterMap
    fun kt =>
      if 0 < kt.2.1 then
        some { period := kt.1
               total := kt.2.1
               taken := kt.2.2.1
               missed := kt.2.2.2
               adherence_percentage := round1 ((kt.2.2.1 : ℚ) / (kt.2.1 : ℚ) * 100)
               miss_percentage := round1 ((kt.2.2.2 : ℚ) / (kt.2.1 : ℚ) * 100) }
      else none

/-! #### `calculate_streak` -/

/-- One group of the streak aggregation pipeline. -/
structure DayStat where
  date : String
  total : Nat
  taken : Nat
  missed : Nat
  is_perfect : Bool
deriving DecidableEq, Repr

/-- Distinct record dates, most recent first (`$group` by date then
`$sort` descending). -/
def datesOf (records : List DoseHistoryRecord) : List String :=
  sortDescStr (records.map (·.date)).dedup

/-- Per-date totals of the aggregation; a perfect day has no missed entry
and at least one taken entry. -/
def dayStatFor (records : List DoseHistoryRecord) (d : String) : DayStat :=
  let total := (records.filter (fun r => r.date == d)).length
  let taken := (records.filter (fun r => r.date == d && r.status == "taken")).length
  let missed := (records.filter (fun r => r.date == d && r.status == "missed")).length
  { date := d
    total := total
    taken := taken
    missed := missed
    is_perfect := decide (missed = 0) && decide (0 < taken) }

/-- The `daily_stats` list of `calculate_streak`. -/
def daily_stats (records : List DoseHistoryRecord) : List DayStat :=
  (datesOf records).map (dayStatFor records)

/-- The current-streak loop body after the possible skip of today. -/
def currentStreakGo : List DayStat → Nat
  | [] => 0
  | day :: rest => if day.is_perfect then currentStreakGo rest + 1 else 0

/-- The current-streak loop: today is skipped only at index 0. -/
def current_streak_of (ds : List DayStat) (today : String) : Nat :=
  match ds with
  | [] => 0
  | d0 :: rest => if d0.date = today then currentStreakGo rest else currentStreakGo (d0 :: rest)

/-- The best-streak loop: running `(temp_streak, best_streak)` fold. -/
def bestStreakFold (ds : List DayStat) : Nat :=
  (ds.foldl
    (fun tb day => if day.is_perfect then (tb.1 + 1, max tb.2 (tb.1 + 1)) else (0, tb.2))
    ((0 : Nat), (0 : Nat))).2

/-- `calculate_streak`: `(current_streak, best_streak)` over the user's
ledger records, given today's date string. -/
def calculate_streak (records : List DoseHistoryRecord) (today : String) : Nat × Nat :=
  let ds := daily_stats records
  (current_streak_of ds today, bestStreakFold ds)

/-- Length of the longest run of `true` in a list: the declarative reading
of "longest run of perfect days ever seen". -/
def maxRunTrue : List Bool → Nat
  | [] => 0
  | false :: t => maxRunTrue t
  | true :: t => max ((t.takeWhile id).length + 1) (maxRunTrue (t.dropWhile id))
termination_by l => l.length
decreasing_by
  · simp
  · simp only [List.length_cons]
    exact Nat.lt_succ_of_le ((List.dropWhile_sublist _).length_le)

/-- Longest run of `true`, carrying the length `temp` of the run open at the
current position (the recursion view of the best-streak fold state). -/
def maxRunFrom (temp : Nat) : List Bool → Nat
  | [] => temp
  | true :: t => maxRunFrom (temp + 1) t
  | false :: t => max temp (maxRunFrom 0 t)

/-- Modelled from the claim's words (C8): a day is perfect iff it has at
least one ledger entry and zero entries with status `"missed"`. -/
def claimPerfectDayB (records : List DoseHistoryRecord) (d : String) : Bool :=
  decide (0 < (records.filter (fun r => r.date == d)).length) &&
    decide ((records.filter (fun r => r.date == d && r.status == "missed")).length = 0)

/-- Modelled from the claim's words (C8): count of consecutive claim-perfect
days scanning dates descending from the most recent non-today day. -/
def claimCurrentStreak (records : List DoseHistoryRecord) (today : String) : Nat :=
  match datesOf records with
  | [] => 0
  | d0 :: rest =>
    let ds := if d0 = today then rest else d0 :: rest
    ((ds.map (claimPerfectDayB records)).takeWhile id).length

end dose_history_service

namespace medication_service

/-! ### `app/services/user/medication_service.py` — medication state

A medication document; fields the claims never read (duration strings,
descriptions, timestamps) are omitted.  `doses_taken_today` is the live
per-day slot map, `doses_taken_date` its day stamp. -/

structure Medication where
  id : String
  user_id : String
  name : String
  frequency : Int
  dose_per_intake : Int
  current_stock : Option Int
  total_stock : Option Int
  schedule_times : Option (List String)
  doses_taken_today : List (String × Bool)
  doses_taken_date : Option String
deriving DecidableEq, Repr

/-- `generate_schedule_times(frequency)` of the medication service: empty
for non-positive frequency, fixed tables for 1–4, even distribution over
08:00–22:00 above (float hour truncated to an integer, exact here as a
rational). -/
def generate_schedule_times (frequency : Int) : List String :=
  if frequency ≤ 0 then []
  else if frequency = 1 then ["08:00"]
  else if frequency = 2 then ["08:00", "20:00"]
  else if frequency = 3 then ["08:00", "14:00", "20:00"]
  else if frequency = 4 then ["08:00", "12:00", "16:00", "20:00"]
  else
    (List.range frequency.toNat).map fun i =>
      twoDigitStr (8 + i * 14 / (frequency.toNat - 1)) ++ ":00"

/-- `calculate_next_dose_time`: first slot of the sorted schedule not marked
taken (`None` when the schedule is missing/empty or everything is taken). -/
def calculate_next_dose_time (schedule_times : Option (List String))
    (doses_taken : List (String × Bool)) : Option String :=
  match schedule_times with
  | none => none
  | some [] => none
  | some ts => (sortAscStr ts).find? fun t => !((doses_taken.lookup t).getD false)

/-- The enriched medication view returned by `enrich_medication`: the
updated in-memory document plus the internal rollover flags and the
computed stock fields (duration-progress fields are omitted — no claim
reads them). -/
structure EnrichedView where
  med : Medication
  needs_daily_reset : Bool
  previous_doses : List (String × Bool)
  previous_date : Option String
  days_remaining : Option Int
  stock_percentage : Option ℚ
  stock_status : String
  next_dose_time : Option String
deriving DecidableEq, Repr

/-- `enrich_medication(med)`: the day-rollover check resets the live map in
the returned document (flagging `_needs_daily_reset` for the caller),
fills a missing schedule and computes the stock fields.  It performs no
write of its own. -/
def enrich_medication (today : String) (m0 : Medication) : EnrichedView :=
  let reset :=
    match m0.doses_taken_date with
    | some d =>
      if d ≠ today then
        ({ m0 with doses_taken_today := [], doses_taken_date := some today },
          true, m0.doses_taken_today, some d)
      else (m0, false, ([] : List (String × Bool)), (none : Option String))
    | none =>
      ({ m0 with doses_taken_date := some today, doses_taken_today := [] },
        false, ([] : List (String × Bool)), (none : Option String))
  let m1 := reset.1
  let frequency := m1.frequency
  let days_remaining :=
    match m1.current_stock with
    | some cs =>
      if frequency ≠ 0 then
        some (calculate_stock_days_remaining cs frequency m1.dose_per_intake)
      else none
    | none => none
  let stock_percentage :=
    match m1.total_stock, m1.current_stock with
    | some ts, some cs =>
      if ts ≠ 0 then some (if 0 < ts then round1 ((cs : ℚ) / (ts : ℚ) * 100) else 0)
      else none
    | _, _ => none
  let stock_status := calculate_stock_status m1.current_stock m1.total_stock
    frequency m1.dose_per_intake
  let schedEmpty :=
    match m1.schedule_times with
    | none => true
    | some l => l.isEmpty
  let m2 :=
    if schedEmpty = true ∧ frequency ≠ 0 then
      { m1 with schedule_times := some (generate_schedule_times frequency) }
    else m1
  { med := m2
    needs_daily_reset := reset.2.1
    previous_doses := reset.2.2.1
    previous_date := reset.2.2.2
    days_remaining := days_remaining
    stock_percentage := stock_percentage
    stock_status := stock_status
    next_dose_time := calculate_next_dose_time m2.schedule_times m2.doses_taken_today }

/-- `find_one({_id, user_id})` on the medications collection. -/
def findMed (meds : List Medication) (user_id medication_id : String) : Option Medication :=
  meds.find? fun m => m.id == medication_id && m.user_id == user_id

/-- The medications collection together with the dose-history ledger. -/
structure MedDB where
  meds : List Medication
  history : List dose_history_service.DoseHistoryRecord
deriving DecidableEq, Repr

/-- `mark_dose_taken(user_id, medication_id, time_slot, taken)` of the
medication service: reads the enriched medication, updates the live slot
map, adjusts stock idempotently via `was_taken`, persists the three fields,
and logs the event to the dose-history ledger (the history call resolves to
the dose-history service's `log_dose_event`, declared in the user package).
`nowMin` is the current datetime in timeline minutes. -/
def mark_dose_taken (db : MedDB) (user_id medication_id time_slot : String)
    (taken : Bool) (today : String) (nowMin : Int) : MedDB :=
  match findMed db.meds user_id medication_id with
  | none => db
  | some med0 =>
    let current_med := (enrich_medication today med0).med
    let doses0 := current_med.doses_taken_today
    let doses1 := if current_med.doses_taken_date ≠ some today then [] else doses0
    let was_taken := (doses1.lookup time_slot).getD false
    let doses2 := dictInsert time_slot taken doses1
    let new_stock : Option Int :=
      match current_med.current_stock with
      | none => none
      | some cs =>
        if taken ∧ ¬was_taken then some (max 0 (cs - current_med.dose_per_intake))
        else if ¬taken ∧ was_taken then some (cs + current_med.dose_per_intake)
        else some cs
    let meds' := updateFirstBy
      (fun m => m.id == medication_id && m.user_id == user_id)
      (fun m =>
        { m with
          doses_taken_today := doses2
          doses_taken_date := some today
          current_stock := (match new_stock with | some cs => some cs | none => m.current_stock) })
      db.meds
    let ev : dose_history_service.DoseHistoryEvent :=
      { user_id := user_id
        medication_id := medication_id
        medication_name := current_med.name
        date := today
        time_slot := time_slot
        status := if taken then "taken" else "missed"
        actual_time := if taken then some nowMin else none
        notes := none
        now := nowMin }
    { meds := meds', history := dose_history_service.log_dose_event db.history ev }

end medication_service

namespace dose_service

/-! ### `dose_service.py` — the dose-log mark path -/

/-- `DoseStatus.value` strings. -/
def statusStr : DoseStatus → String
  | DoseStatus.pending => "pending"
  | DoseStatus.available => "available"
  | DoseStatus.taken => "taken"
  | DoseStatus.late => "late"
  | DoseStatus.missed => "missed"

/-- One document of the dose-logs collection. -/
structure DoseLog where
  medication_id : String
  user_id : String
  date : String
  scheduled_time : String
  status : String
  taken_at : Option String
  created_at : Nat
deriving DecidableEq, Repr

/-- The dose-logs collection together with the medications collection. -/
structure DoseDB where
  logs : List DoseLog
  meds : List medication_service.Medication
deriving DecidableEq, Repr

/-- `mark_dose_taken` of the dose service: upserts the dose log keyed on
`(medication_id, user_id, date, scheduled_time)` and then decrements stock
whenever tracking is enabled — on every call, with no check of the previous
log state.  `nowSec` is the current time as seconds of the day, `nowHM` its
`"%H:%M"` rendering; a malformed time string raises, leaving the state
unchanged. -/
def mark_dose_taken (db : DoseDB) (user_id medication_id scheduled_time : String)
    (taken_at : Option String) (today : String) (nowSec : Nat) (nowHM : String) :
    DoseDB :=
  let taken_at := taken_at.getD nowHM
  match calculate_dose_status scheduled_time nowSec (some taken_at) with
  | none => db
  | some (status, _) =>
    let key := fun (l : DoseLog) =>
      l.medication_id == medication_id && l.user_id == user_id &&
        l.date == today && l.scheduled_time == scheduled_time
    let logs' :=
      if db.logs.any key then
        updateFirstBy key
          (fun l => { l with status := statusStr status, taken_at := some taken_at })
          db.logs
      else
        let newLog : DoseLog :=
          { medication_id := medication_id
            user_id := user_id
            date := today
            scheduled_time := scheduled_time
            status := statusStr status
            taken_at := some taken_at
            created_at := nowSec }
        db.logs ++ [newLog]
    let meds' :=
      match medication_service.findMed db.meds user_id medication_id with
      | none => db.meds
      | some med =>
        match med.current_stock with
        | none => db.meds
        | some cs =>
          updateFirstBy (fun m => m.id == medication_id)
            (fun m =>
              { m with current_stock := some (max 0 (cs - med.dose_per_intake)) })
            db.meds
    { logs := logs', meds := meds' }

end dose_service

/-! ### Arithmetic bridge for Python truncating division -/

/-- `int(((a : datetime) - b).total_seconds() / 60)` truncates toward zero;
over integer seconds this is `Int.tdiv`, expressed through `Nat` division on
whichever of `a - b`, `b - a` is nonzero. -/
theorem sub_tdiv_sixty (a b : Nat) :
    ((a : Int) - (b : Int)).tdiv 60 =
      (((a - b) / 60 : Nat) : Int) - (((b - a) / 60 : Nat) : Int) := by
  rcases le_total b a with h | h
  · have h1 : ((a : Int) - (b : Int)) = ((a - b : Nat) : Int) := by omega
    have h2 : (b - a) / 60 = 0 := by omega
    rw [h1, h2, Int.tdiv_eq_ediv (by positivity) (by norm_num)]
    rw [show ((60 : Int)) = ((60 : Nat) : Int) from rfl, ← Int.ofNat_ediv]
    omega
  · have h1 : ((a : Int) - (b : Int)) = -(((b - a : Nat) : Int)) := by omega
    have h2 : (a - b) / 60 = 0 := by omega
    have h3 : ((b - a : Nat) : Int).tdiv 60 = (((b - a) / 60 : Nat) : Int) := by
      rw [Int.tdiv_eq_ediv (by positivity) (by norm_num)]
      rw [show ((60 : Int)) = ((60 : Nat) : Int) from rfl, ← Int.ofNat_ediv]
    rw [h1, Int.neg_tdiv, h3, h2]
    omega

/-! ### Claim C3 — dose status classification -/

/-- C3 counterexample: at 11:29:30 against a 12:00 schedule the current
instant is more than 30 minutes before the scheduled time (1830 s > 1800 s),
yet `calculate_dose_status` returns AVAILABLE, not PENDING: the second-level
offset is truncated toward zero to −30 minutes before the comparison. -/
theorem calculate_dose_status_pending_boundary_counterexample :
    1800 < 12 * 3600 + 0 * 60 - 41370 ∧
    dose_service.calculate_dose_status "12:00" 41370 none =
      some (DoseStatus.available, -30) ∧
    DoseStatus.available ≠ DoseStatus.pending := by
  refine ⟨by norm_num, by decide, by decide⟩

/-- C3 (amended): `calculate_dose_status` classifies exactly as the claim
states once the offset `now − scheduled` is truncated toward zero to whole
minutes: PENDING iff untaken and `now` is at least 31 whole minutes (1860 s)
before the scheduled instant; AVAILABLE iff untaken and within
(−31 min, +121 min) of it; MISSED iff untaken and at least 121 minutes after
it; for a taken dose the returned offset is `taken − scheduled` in minutes
(negative = early), TAKEN iff that offset lies in [−30, +30], LATE otherwise;
each stated boundary is inclusive of the earlier-named state. -/
theorem calculate_dose_status_classification (sh sm now th tm : Nat) :
    dose_service.calculateDoseStatusHM sh sm now none =
      ((if (now : Int) + 1860 ≤ (sh : Int) * 3600 + (sm : Int) * 60 then
          DoseStatus.pending
        else if (now : Int) < (sh : Int) * 3600 + (sm : Int) * 60 + 7260 then
          DoseStatus.available
        else DoseStatus.missed),
       (((now - (sh * 3600 + sm * 60)) / 60 : Nat) : Int) -
         ((((sh * 3600 + sm * 60) - now) / 60 : Nat) : Int)) ∧
    dose_service.calculateDoseStatusHM sh sm now (some (th, tm)) =
      ((if -30 ≤ (th : Int) * 60 + (tm : Int) - ((sh : Int) * 60 + (sm : Int)) ∧
            (th : Int) * 60 + (tm : Int) - ((sh : Int) * 60 + (sm : Int)) ≤ 30 then
          DoseStatus.taken
        else DoseStatus.late),
       (th : Int) * 60 + (tm : Int) - ((sh : Int) * 60 + (sm : Int))) := by
  constructor
  · have key := sub_tdiv_sixty now (sh * 3600 + sm * 60)
    simp only [dose_service.calculateDoseStatusHM, EARLY_WINDOW, MISSED_THRESHOLD]
    rw [key]
    split_ifs <;> simp only [Prod.mk.injEq] <;>
      first
        | exact ⟨trivial, by omega⟩
        | (exfalso; omega)
  · have key := sub_tdiv_sixty (th * 3600 + tm * 60) (sh * 3600 + sm * 60)
    simp only [dose_service.calculateDoseStatusHM, EARLY_WINDOW, ON_TIME_WINDOW]
    rw [key]
    split_ifs <;> simp only [Prod.mk.injEq] <;>
      first
        | exact ⟨trivial, by omega⟩
        | (exfalso; omega)

/-! ### Claim C9 — `log_dose_event` is total; `was_late` guard -/

/-- C9: `log_dose_event` never raises — its record construction is a total
function of the call arguments; when `f"{date} {time_slot}"` does not parse
as `"%Y-%m-%d %H:%M"` the record stores `was_late = False` and
`scheduled_at = None`; and `was_late` can be `True` only when the status is
`"taken"`, an actual time is present, and it exceeds the parsed scheduled
instant by strictly more than 30 minutes. -/
theorem log_dose_event_total_and_late_guard (e : dose_history_service.DoseHistoryEvent) :
    (dose_history_service.strptime_ymd_hm (e.date ++ " " ++ e.time_slot) = none →
       (dose_history_service.mkRecord e).was_late = false ∧
       (dose_history_service.mkRecord e).scheduled_at = none) ∧
    ((dose_history_service.mkRecord e).was_late = true →
       e.status = "taken" ∧
       ∃ t, e.actual_time = some t ∧
       ∃ s, dose_history_service.strptime_ymd_hm (e.date ++ " " ++ e.time_slot) = some s ∧
         (s : Int) + 30 < t) := by
  constructor
  · intro h
    constructor
    · simp only [dose_history_service.mkRecord, dose_history_service.wasLateOf, h]
      first
        | rfl
        | (split_ifs <;> first | (cases e.actual_time <;> rfl) | rfl)
    · simp only [dose_history_service.mkRecord, h]
  · intro h
    simp only [dose_history_service.mkRecord, dose_history_service.wasLateOf] at h
    split_ifs at h with hs
    · cases hact : e.actual_time with
      | none =>
        rw [hact] at h
        cases hsch : dose_history_service.strptime_ymd_hm (e.date ++ " " ++ e.time_slot) <;>
          rw [hsch] at h <;> simp at h
      | some t =>
        cases hsch : dose_history_service.strptime_ymd_hm (e.date ++ " " ++ e.time_slot) with
        | none =>
          rw [hact, hsch] at h
          simp at h
        | some s =>
          rw [hact, hsch] at h
          simp only [decide_eq_true_eq] at h
          exact ⟨hs, t, rfl, s, rfl, h⟩

/-- Witness for the C9 theorem: a call with an unparseable slot stores the
failure defaults, and a taken dose 40 minutes past its parsed schedule is
marked late exactly through the guard. -/
theorem log_dose_event_total_and_late_guard_witness :
    ((dose_history_service.mkRecord
        { user_id := "u1", medication_id := "m1", medication_name := "Aspirin",
          date := "not a date", time_slot := "late", status := "missed",
          actual_time := none, notes := none, now := 0 }).was_late = false ∧
     (dose_history_service.mkRecord
        { user_id := "u1", medication_id := "m1", medication_name := "Aspirin",
          date := "not a date", time_slot := "late", status := "missed",
          actual_time := none, notes := none, now := 0 }).scheduled_at = none) :=
  (log_dose_event_total_and_late_guard
    { user_id := "u1", medication_id := "m1", medication_name := "Aspirin",
      date := "not a date", time_slot := "late", status := "missed",
      actual_time := none, notes := none, now := 0 }).1 (by decide)

/-! ### Claim C4 — ledger key uniqueness via upsert -/

namespace dose_history_service

/-- Replacing the first `p`-match by `v` when exactly one element matches
leaves `[v]` as the matching elements. -/
theorem filter_updateFirst_single {α : Type} (p : α → Bool) (v : α) (hv : p v = true) :
    ∀ l : List α, l.any p = true → (l.filter p).length ≤ 1 →
      (updateFirst p v l).filter p = [v] := by
  intro l
  induction l with
  | nil => intro h _; simp at h
  | cons x xs ih =>
    intro hany hlen
    by_cases hx : p x = true
    · have hxs : xs.filter p = [] := by
        rw [List.filter_cons_of_pos hx] at hlen
        simp only [List.length_cons] at hlen
        exact List.length_eq_zero.mp (by omega)
      rw [show updateFirst p v (x :: xs) = v :: xs from by simp [updateFirst, hx]]
      rw [List.filter_cons_of_pos hv, hxs]
    · have hxf : p x = false := by rwa [Bool.not_eq_true] at hx
      have hany' : xs.any p = true := by
        rwa [List.any_cons, hxf, Bool.false_or] at hany
      have hlen' : (xs.filter p).length ≤ 1 := by
        rwa [List.filter_cons_of_neg (by simp [hxf])] at hlen
      rw [show updateFirst p v (x :: xs) = x :: updateFirst p v xs from by
        simp [updateFirst, hxf]]
      rw [List.filter_cons_of_neg (by simp [hxf]), ih hany' hlen']

/-- Replacing a first `q`-match by a non-`p` value cannot change the
`p`-matches when `q`-matches are never `p`-matches. -/
theorem filter_updateFirst_other {α : Type} (p q : α → Bool) (v : α)
    (hv : p v = false) (hq : ∀ x, q x = true → p x = false) :
    ∀ l : List α, (updateFirst q v l).filter p = l.filter p := by
  intro l
  induction l with
  | nil => rfl
  | cons x xs ih =>
    by_cases hx : q x = true
    · rw [show updateFirst q v (x :: xs) = v :: xs from by simp [updateFirst, hx]]
      rw [List.filter_cons_of_neg (by simp [hv]),
        List.filter_cons_of_neg (by simp [hq x hx])]
    · have hxf : q x = false := by rwa [Bool.not_eq_true] at hx
      rw [show updateFirst q v (x :: xs) = x :: updateFirst q v xs from by
        simp [updateFirst, hxf]]
      by_cases hpx : p x = true
      · rw [List.filter_cons_of_pos hpx, List.filter_cons_of_pos hpx, ih]
      · rw [List.filter_cons_of_neg hpx, List.filter_cons_of_neg hpx, ih]

/-- The record built from a call carries the call's composite key. -/
theorem keyMatches_mkRecord (m d t : String) (e : DoseHistoryEvent) :
    keyMatches m d t (mkRecord e) = eventKeyMatches m d t e := rfl

/-- One upsert with the queried key leaves exactly the new record under that
key. -/
theorem entriesFor_log_same (m d t : String) (led : List DoseHistoryRecord)
    (e : DoseHistoryEvent) (he : eventKeyMatches m d t e = true)
    (hlen : (entriesFor m d t led).length ≤ 1) :
    entriesFor m d t (log_dose_event led e) = [mkRecord e] := by
  have hkey : e.medication_id = m ∧ e.date = d ∧ e.time_slot = t := by
    simpa [eventKeyMatches, Bool.and_eq_true, beq_iff_eq, and_assoc] using he
  obtain ⟨h1, h2, h3⟩ := hkey
  subst h1; subst h2; subst h3
  simp only [log_dose_event, entriesFor] at hlen ⊢
  split_ifs with hany
  · exact filter_updateFirst_single _ _ (by rw [keyMatches_mkRecord]; exact he) led hany hlen
  · rw [List.filter_append]
    rw [List.filter_eq_nil.mpr (by
      intro a ha
      simp only [List.any_eq_true, not_exists, not_and] at hany
      simp [hany a ha])]
    simp [keyMatches_mkRecord, he]

/-- One upsert with a different key leaves the queried key's entries
unchanged. -/
theorem entriesFor_log_other (m d t : String) (led : List DoseHistoryRecord)
    (e : DoseHistoryEvent) (he : eventKeyMatches m d t e = false) :
    entriesFor m d t (log_dose_event led e) = entriesFor m d t led := by
  have hrec : keyMatches m d t (mkRecord e) = false := by
    rw [keyMatches_mkRecord]; exact he
  simp only [log_dose_event, entriesFor]
  split_ifs with hany
  · refine filter_updateFirst_other _ _ _ hrec ?_ led
    intro x hx
    simp only [keyMatches, Bool.and_eq_true, beq_iff_eq] at hx
    obtain ⟨⟨hxm, hxd⟩, hxt⟩ := hx
    simp only [keyMatches, hxm, hxd, hxt]
    simpa [eventKeyMatches] using he
  · rw [List.filter_append, List.filter_cons_of_neg (by simp [hrec]), List.filter_nil,
      List.append_nil]

/-- Folding the upsert over a call sequence from any low-multiplicity ledger
resolves the queried key to the last matching call. -/
theorem entriesFor_foldl (m d t : String) (calls : List DoseHistoryEvent) :
    ∀ led : List DoseHistoryRecord, (entriesFor m d t led).length ≤ 1 →
      entriesFor m d t (calls.foldl log_dose_event led) =
        (match (calls.filter (eventKeyMatches m d t)).getLast? with
         | none => entriesFor m d t led
         | some e => [mkRecord e]) := by
  induction calls with
  | nil => intro led _; rfl
  | cons c cs ih =>
    intro led hlen
    rw [List.foldl_cons]
    by_cases hc : eventKeyMatches m d t c = true
    · rw [List.filter_cons_of_pos hc]
      have hnew := entriesFor_log_same m d t led c hc hlen
      rw [ih (log_dose_event led c) (by rw [hnew]; simp)]
      rw [hnew]
      cases hfil : cs.filter (eventKeyMatches m d t) with
      | nil => simp
      | cons a l =>
        rw [List.getLast?_cons_cons]
        cases hl2 : (a :: l).getLast? with
        | none => simp at hl2
        | some e => rfl
    · have hcf : eventKeyMatches m d t c = false := by simpa using hc
      have hfc : List.filter (eventKeyMatches m d t) (c :: cs) =
          List.filter (eventKeyMatches m d t) cs :=
        List.filter_cons_of_neg (by simp [hcf])
      have hsame := entriesFor_log_other m d t led c hcf
      rw [hfc, ih (log_dose_event led c) (by rw [hsame]; exact hlen), hsame]

end dose_history_service

/-- C4: starting from an empty ledger, any sequence of `log_dose_event`
calls leaves at most one ledger entry per composite key
`(medication_id, date, time_slot)`, and the entry stored under a key is
exactly the record of the latest call with that key (later calls overwrite
status and actual time rather than duplicating). -/
theorem log_dose_event_upsert_unique (calls : List dose_history_service.DoseHistoryEvent)
    (m d t : String) :
    dose_history_service.entriesFor m d t
        (calls.foldl dose_history_service.log_dose_event []) =
      (match (calls.filter (dose_history_service.eventKeyMatches m d t)).getLast? with
       | none => []
       | some e => [dose_history_service.mkRecord e]) ∧
    (dose_history_service.entriesFor m d t
        (calls.foldl dose_history_service.log_dose_event [])).length ≤ 1 := by
  have h := dose_history_service.entriesFor_foldl m d t calls [] (by simp [dose_history_service.entriesFor])
  constructor
  · rw [h]
    cases (calls.filter (dose_history_service.eventKeyMatches m d t)).getLast? <;>
      simp [dose_history_service.entriesFor]
  · rw [h]
    cases (calls.filter (dose_history_service.eventKeyMatches m d t)).getLast? <;>
      simp [dose_history_service.entriesFor]

/-! ### Claim C5 — schedule generator output shape -/

/-- C5 counterexample: `generate(6, None)` ends in `"02:00"`, so its six
distinct slots are not in ascending clock order, and `generate(0, None)`
falls back to the single default slot `["08:00"]` instead of the empty
list. -/
theorem generate_schedule_times_claim_counterexample :
    dose_service.generate_schedule_times 6 none =
      ["06:00", "10:00", "14:00", "18:00", "22:00", "02:00"] ∧
    sortedAscClockB (dose_service.generate_schedule_times 6 none) = false ∧
    dose_service.generate_schedule_times 0 none = ["08:00"] ∧
    dose_service.generate_schedule_times 0 none ≠ [] := by
  refine ⟨by decide, by decide, by decide, by decide⟩

/-- C5 (amended): for frequency `f ∈ [1, 6]`, `generate(f, None)` returns
exactly `f` distinct time slots, and for `f ∈ [1, 5]` they are sorted in
ascending clock order (`f = 6` ends with the out-of-order `"02:00"`); for
`f ≤ 0` with no timing hint the generator falls back to the single default
slot `["08:00"]` rather than the empty list. -/
theorem generate_schedule_times_default_shape (f : Int) :
    (1 ≤ f → f ≤ 6 →
       (dose_service.generate_schedule_times f none).length = f.toNat ∧
       (dose_service.generate_schedule_times f none).Nodup) ∧
    (1 ≤ f → f ≤ 5 →
       sortedAscClockB (dose_service.generate_schedule_times f none) = true) ∧
    (f ≤ 0 → dose_service.generate_schedule_times f none = ["08:00"]) := by
  refine ⟨fun h1 h2 => ?_, fun h1 h2 => ?_, fun h => ?_⟩
  · interval_cases f <;> decide
  · interval_cases f <;> decide
  · have hnone : DEFAULT_SCHEDULES.lookup f = none := by
      simp only [DEFAULT_SCHEDULES, List.lookup,
        show (f == (1 : Int)) = false by simp; omega,
        show (f == (2 : Int)) = false by simp; omega,
        show (f == (3 : Int)) = false by simp; omega,
        show (f == (4 : Int)) = false by simp; omega,
        show (f == (5 : Int)) = false by simp; omega,
        show (f == (6 : Int)) = false by simp; omega]
    simp only [dose_service.generate_schedule_times, hnone]
    rfl

/-- Witness for the amended C5 theorem at `f = 3` and `f = -2`. -/
theorem generate_schedule_times_default_shape_witness :
    ((dose_service.generate_schedule_times 3 none).length = (3 : Int).toNat ∧
       (dose_service.generate_schedule_times 3 none).Nodup) ∧
    sortedAscClockB (dose_service.generate_schedule_times 3 none) = true ∧
    dose_service.generate_schedule_times (-2) none = ["08:00"] :=
  ⟨(generate_schedule_times_default_shape 3).1 (by norm_num) (by norm_num),
   (generate_schedule_times_default_shape 3).2.1 (by norm_num) (by norm_num),
   (generate_schedule_times_default_shape (-2)).2.2 (by norm_num)⟩

/-! ### Claim C6 — stock accounting -/

/-- C6 counterexample: with a zero daily consumption the claim's
days-remaining is 0, predicting `"critical"` for any positive stock, but
`calculate_stock_status` falls back to one pill per day and classifies
stock 20 at frequency 0 as `"healthy"`. -/
theorem stock_status_zero_divisor_counterexample :
    medication_service.calculate_stock_days_remaining 20 0 1 = 0 ∧
    (0 : Int) ≤ 3 ∧
    medication_service.calculate_stock_status (some 20) (some 30) 0 1 = "healthy" ∧
    ("healthy" : String) ≠ "critical" := by
  refine ⟨by decide, by decide, by decide, by decide⟩

/-- C6 (amended): `daysRemaining` is floor division of stock by the daily
consumption, guarded to 0 when the divisor is zero; `stockStatus` is
`"unknown"` iff stock tracking is absent, `"out"` iff the stock value
is ≤ 0, and otherwise follows the 3 / 7 / 14 thresholds on days remaining —
computed as `daysRemaining` when the daily consumption
`frequency × dose_per_intake` is positive, but with the daily consumption
replaced by 1 (so days remaining = the stock itself, not the claim's 0)
when it is zero or negative; the three worked examples of the spec evaluate
as stated. -/
theorem stock_accounting_spec :
    (∀ s f d : Int, 0 < f * d →
       medication_service.calculate_stock_days_remaining s f d = s.fdiv (f * d)) ∧
    (∀ s f d : Int, f * d = 0 →
       medication_service.calculate_stock_days_remaining s f d = 0) ∧
    (∀ (s t : Option Int) (f d : Int),
       medication_service.calculate_stock_status s t f d = "unknown" ↔ s = none) ∧
    (∀ (v : Int) (t : Option Int) (f d : Int),
       medication_service.calculate_stock_status (some v) t f d = "out" ↔ v ≤ 0) ∧
    (∀ (v : Int) (t : Option Int) (f d : Int), 0 < f * d → 0 < v →
       medication_service.calculate_stock_status (some v) t f d =
         (if medication_service.calculate_stock_days_remaining v f d ≤ 3 then "critical"
          else if medication_service.calculate_stock_days_remaining v f d ≤ 7 then "low"
          else if medication_service.calculate_stock_days_remaining v f d ≤ 14 then "medium"
          else "healthy")) ∧
    (∀ (v : Int) (t : Option Int) (f d : Int), f * d ≤ 0 → 0 < v →
       medication_service.calculate_stock_status (some v) t f d =
         (if v ≤ 3 then "critical"
          else if v ≤ 7 then "low"
          else if v ≤ 14 then "medium"
          else "healthy")) ∧
    medication_service.calculate_stock_status (some 3) (some 30) 1 1 = "critical" ∧
    medication_service.calculate_stock_status (some 0) (some 30) 1 1 = "out" ∧
    medication_service.calculate_stock_status none (some 30) 1 1 = "unknown" := by
  refine ⟨?_, ?_, ?_, ?_, ?_, ?_, by decide, by decide, by decide⟩
  · intro s f d hfd
    have hf : f ≠ 0 := by rintro rfl; simp at hfd
    simp only [medication_service.calculate_stock_days_remaining]
    split_ifs with h1 h2
    · rcases h1 with h1 | h1
      · rw [h1, Int.zero_fdiv]
      · exact absurd h1 hf
    · omega
    · rfl
  · intro s f d hfd
    simp only [medication_service.calculate_stock_days_remaining]
    split_ifs with h1 h2
    · rfl
    · rfl
    · omega
  · intro s t f d
    cases s with
    | none => simp [medication_service.calculate_stock_status]
    | some v =>
      simp only [medication_service.calculate_stock_status]
      split_ifs <;> exact iff_of_false (by decide) (by simp)
  · intro v t f d
    simp only [medication_service.calculate_stock_status]
    split_ifs with h1 <;>
      first
        | exact iff_of_true rfl h1
        | exact iff_of_false (by decide) h1
  · intro v t f d hfd hv
    have hv0 : v ≠ 0 := by omega
    have hf : f ≠ 0 := by rintro rfl; simp at hfd
    simp only [medication_service.calculate_stock_status,
      medication_service.calculate_stock_days_remaining]
    rw [if_neg (by omega : ¬v ≤ 0), if_neg (by tauto : ¬(v = 0 ∨ f = 0)),
      if_neg (by omega : ¬f * d ≤ 0), if_neg (by omega : ¬f * d ≤ 0)]
  · intro v t f d hfd hv
    simp only [medication_service.calculate_stock_status]
    rw [if_neg (by omega : ¬v ≤ 0), if_pos hfd, Int.fdiv_one]

/-- Witness for the amended C6 theorem at concrete stocks and
frequencies, the zero-divisor fallback included. -/
theorem stock_accounting_spec_witness :
    medication_service.calculate_stock_days_remaining 7 2 1 = (7 : Int).fdiv 2 ∧
    medication_service.calculate_stock_days_remaining 5 0 3 = 0 ∧
    medication_service.calculate_stock_status (some 20) none 1 1 =
      (if medication_service.calculate_stock_days_remaining 20 1 1 ≤ 3 then "critical"
       else if medication_service.calculate_stock_days_remaining 20 1 1 ≤ 7 then "low"
       else if medication_service.calculate_stock_days_remaining 20 1 1 ≤ 14 then "medium"
       else "healthy") ∧
    medication_service.calculate_stock_status (some 5) none 0 2 =
      (if (5 : Int) ≤ 3 then "critical"
       else if (5 : Int) ≤ 7 then "low"
       else if (5 : Int) ≤ 14 then "medium"
       else "healthy") :=
  ⟨stock_accounting_spec.1 7 2 1 (by norm_num),
   stock_accounting_spec.2.1 5 0 3 (by norm_num),
   stock_accounting_spec.2.2.2.2.1 20 none 1 1 (by norm_num) (by norm_num),
   stock_accounting_spec.2.2.2.2.2.1 5 none 0 2 (by norm_num) (by norm_num)⟩


/-! ### Claim C7 — empty-period analytics -/

/-- `round(100.0, 1)` is 100. -/
theorem round1_hundred : round1 100 = 100 := by
  rw [round1, show ((100 : ℚ) * 10) = ((1000 : ℤ) : ℚ) by norm_num, round_intCast]
  norm_num

/-- C7 counterexample: a comparison week with zero ledger entries reports an
adherence percentage of 0, not 100. -/
theorem comparison_empty_week_counterexample :
    (dose_history_service.get_period_stats []).adherence_percentage = 0 ∧
    (0 : ℚ) ≠ 100 := by
  refine ⟨rfl, by norm_num⟩

/-- C7 (amended): an empty period yields 100% adherence with zero counts in
`get_adherence_stats`, and an empty bucket list in
`get_time_of_day_analysis`; but each week of `get_comparison_stats` with no
entries reports an adherence percentage of 0, not 100. -/
theorem analytics_empty_period :
    (dose_history_service.get_adherence_stats []).total_doses = 0 ∧
    (dose_history_service.get_adherence_stats []).taken = 0 ∧
    (dose_history_service.get_adherence_stats []).missed = 0 ∧
    (dose_history_service.get_adherence_stats []).late = 0 ∧
    (dose_history_service.get_adherence_stats []).skipped = 0 ∧
    (dose_history_service.get_adherence_stats []).adherence_percentage = 100 ∧
    (dose_history_service.get_adherence_stats []).on_time_percentage = 100 ∧
    dose_history_service.get_time_of_day_analysis [] = [] ∧
    dose_history_service.get_period_stats [] =
      { total := 0, taken := 0, missed := 0, adherence_percentage := 0 } := by
  refine ⟨rfl, rfl, rfl, rfl, rfl, ?_, ?_, rfl, rfl⟩
  · show round1 (if 0 < (0 : Nat) then _ else 100) = 100
    rw [if_neg (by omega)]
    exact round1_hundred
  · show round1 (if 0 < (0 : Nat) then _ else 100) = 100
    rw [if_neg (by omega)]
    exact round1_hundred


/-! ### Claim C8 — streak computation -/

namespace dose_history_service

/-- The current-streak loop counts the perfect prefix. -/
theorem currentStreakGo_eq_takeWhile (l : List DayStat) :
    currentStreakGo l = (l.takeWhile (·.is_perfect)).length := by
  induction l with
  | nil => rfl
  | cons day rest ih =>
    cases hp : day.is_perfect <;>
      simp [currentStreakGo, List.takeWhile_cons, hp, ih]

/-- The open-run length never exceeds the longest-run value. -/
theorem le_maxRunFrom (l : List Bool) : ∀ temp : Nat, temp ≤ maxRunFrom temp l := by
  induction l with
  | nil => intro temp; exact le_refl _
  | cons b t ih =>
    intro temp
    cases b with
    | true => exact le_trans (Nat.le_succ temp) (ih (temp + 1))
    | false => exact le_max_left _ _

/-- The best-streak fold computes the longest-run value. -/
theorem bestFold_eq_maxRunFrom (l : List DayStat) :
    ∀ temp best : Nat, temp ≤ best →
      (l.foldl
        (fun tb day => if day.is_perfect then (tb.1 + 1, max tb.2 (tb.1 + 1)) else (0, tb.2))
        (temp, best)).2 = max best (maxRunFrom temp (l.map (·.is_perfect))) := by
  induction l with
  | nil =>
    intro temp best h
    simp only [List.foldl_nil, List.map_nil, maxRunFrom]
    omega
  | cons day rest ih =>
    intro temp best h
    cases hp : day.is_perfect <;> simp only [List.foldl_cons, hp, List.map_cons]
    · rw [if_neg (by simp), ih 0 best (Nat.zero_le _),
        show maxRunFrom temp (false :: rest.map (·.is_perfect)) =
          max temp (maxRunFrom 0 (rest.map (·.is_perfect))) from rfl]
      omega
    · rw [if_pos trivial, ih (temp + 1) (max best (temp + 1)) (le_max_right _ _),
        show maxRunFrom temp (true :: rest.map (·.is_perfect)) =
          maxRunFrom (temp + 1) (rest.map (·.is_perfect)) from rfl]
      have := le_maxRunFrom (rest.map (·.is_perfect)) (temp + 1)
      omega

/-- `maxRunFrom` through the leading run: joint characterization with
`maxRunTrue`. -/
theorem maxRunFrom_eq_maxRunTrue (l : List Bool) :
    (∀ temp : Nat, maxRunFrom temp l =
       max (temp + (l.takeWhile id).length) (maxRunTrue (l.dropWhile id))) ∧
    maxRunFrom 0 l = maxRunTrue l := by
  have hmtt : ∀ t : List Bool, maxRunTrue (true :: t) =
      max ((t.takeWhile id).length + 1) (maxRunTrue (t.dropWhile id)) := fun t => by
    simp [maxRunTrue]
  have hmtf : ∀ t : List Bool, maxRunTrue (false :: t) = maxRunTrue t := fun t => by
    simp [maxRunTrue]
  have hmtn : maxRunTrue [] = 0 := by simp [maxRunTrue]
  induction l with
  | nil =>
    refine ⟨fun temp => ?_, by simp [maxRunFrom, hmtn]⟩
    simp only [List.takeWhile_nil, List.dropWhile_nil, List.length_nil, maxRunFrom, hmtn]
    omega
  | cons b t ih =>
    cases b with
    | true =>
      have h1 : ∀ temp : Nat, maxRunFrom temp (true :: t) =
          max (temp + ((true :: t).takeWhile id).length)
            (maxRunTrue ((true :: t).dropWhile id)) := by
        intro temp
        rw [show maxRunFrom temp (true :: t) = maxRunFrom (temp + 1) t from rfl, ih.1]
        simp [List.takeWhile_cons, List.dropWhile_cons]
        omega
      refine ⟨h1, ?_⟩
      rw [h1 0, hmtt]
      simp [List.takeWhile_cons, List.dropWhile_cons]
    | false =>
      have h1 : ∀ temp : Nat, maxRunFrom temp (false :: t) =
          max (temp + ((false :: t).takeWhile id).length)
            (maxRunTrue ((false :: t).dropWhile id)) := by
        intro temp
        rw [show maxRunFrom temp (false :: t) = max temp (maxRunFrom 0 t) from rfl, ih.2]
        simp [List.takeWhile_cons, List.dropWhile_cons, hmtf]
      refine ⟨h1, ?_⟩
      rw [show maxRunFrom 0 (false :: t) = max 0 (maxRunFrom 0 t) from rfl, ih.2, hmtf]
      omega

end dose_history_service

/-- C8 counterexample: under the claim's perfect-day reading (at least one
entry, zero missed) a day holding a single skipped entry is perfect, so for
a ledger with a skipped-only most recent day over a taken day the claim
predicts a current streak of 2; the code requires at least one taken entry
and returns 0. -/
theorem streak_perfect_day_counterexample :
    dose_history_service.claimCurrentStreak
        [{ user_id := "u", medication_id := "m", medication_name := "n",
           date := "2026-10-10", time_slot := "08:00", status := "skipped",
           actual_time := none, was_late := false, notes := none,
           scheduled_at := none, created_at := 0, updated_at := 0 },
         { user_id := "u", medication_id := "m", medication_name := "n",
           date := "2026-10-09", time_slot := "08:00", status := "taken",
           actual_time := none, was_late := false, notes := none,
           scheduled_at := none, created_at := 0, updated_at := 0 }] "2026-10-12" = 2 ∧
    (dose_history_service.calculate_streak
        [{ user_id := "u", medication_id := "m", medication_name := "n",
           date := "2026-10-10", time_slot := "08:00", status := "skipped",
           actual_time := none, was_late := false, notes := none,
           scheduled_at := none, created_at := 0, updated_at := 0 },
         { user_id := "u", medication_id := "m", medication_name := "n",
           date := "2026-10-09", time_slot := "08:00", status := "taken",
           actual_time := none, was_late := false, notes := none,
           scheduled_at := none, created_at := 0, updated_at := 0 }] "2026-10-12").1 = 0 ∧
    (2 : Nat) ≠ 0 := by
  refine ⟨by decide, by decide, by decide⟩

/-- C8 (amended): with a perfect day being one with at least one taken entry
and zero missed entries, the current streak is the length of the perfect
prefix of the per-day stats (dates descending), skipping the leading day
when it is today; the best streak is the length of the longest run of
perfect days; and on the claim's worked example — 3 consecutive perfect
days, then a day with a missed dose, then 2 more perfect days (most recent)
— `calculate_streak` returns current 2 and best 3. -/
theorem calculate_streak_spec (records : List dose_history_service.DoseHistoryRecord)
    (today : String) :
    (dose_history_service.calculate_streak records today).1 =
      (match dose_history_service.daily_stats records with
       | [] => 0
       | d0 :: rest =>
         ((if d0.date = today then rest else d0 :: rest).takeWhile (·.is_perfect)).length) ∧
    (dose_history_service.calculate_streak records today).2 =
      dose_history_service.maxRunTrue
        ((dose_history_service.daily_stats records).map (·.is_perfect)) ∧
    dose_history_service.calculate_streak
      ((["2026-10-01", "2026-10-02", "2026-10-03", "2026-10-05", "2026-10-06"].map fun d =>
        { user_id := "u", medication_id := "m", medication_name := "n", date := d,
          time_slot := "08:00", status := "taken", actual_time := none, was_late := false,
          notes := none, scheduled_at := none, created_at := 0, updated_at := 0 }) ++
       [{ user_id := "u", medication_id := "m", medication_name := "n",
          date := "2026-10-04", time_slot := "08:00", status := "missed",
          actual_time := none, was_late := false, notes := none,
          scheduled_at := none, created_at := 0, updated_at := 0 }]) "2026-10-07" =
      (2, 3) := by
  refine ⟨?_, ?_, by decide⟩
  · show dose_history_service.current_streak_of _ _ = _
    cases hds : dose_history_service.daily_stats records with
    | nil => rfl
    | cons d0 rest =>
      show (if d0.date = today then dose_history_service.currentStreakGo rest
            else dose_history_service.currentStreakGo (d0 :: rest)) = _
      split_ifs with h <;>
        simp [dose_history_service.currentStreakGo_eq_takeWhile, h]
  · show dose_history_service.bestStreakFold _ = _
    rw [dose_history_service.bestStreakFold,
      dose_history_service.bestFold_eq_maxRunFrom _ 0 0 (le_refl 0),
      (dose_history_service.maxRunFrom_eq_maxRunTrue _).2]
    omega


/-! ### Medication-service state lemmas -/

/-- Looking up the key just written by a Python dict assignment. -/
theorem lookup_dictInsert (k : String) (v : Bool) (l : List (String × Bool)) :
    (dictInsert k v l).lookup k = some v := by
  induction l with
  | nil => simp [dictInsert, List.lookup]
  | cons p rest ih =>
    obtain ⟨k', v'⟩ := p
    by_cases h : k' = k
    · simp [dictInsert, h, List.lookup]
    · have hne : (k == k') = false := by
        simp only [beq_eq_false_iff_ne, ne_eq]
        exact fun hh => h hh.symm
      simp [dictInsert, h, List.lookup, hne, ih]

namespace medication_service

/-- `enrich_medication` on a document whose day stamp is already today does
not touch the live map, the stamp, the stock fields or the name. -/
theorem enrich_medication_today (today : String) (m : Medication)
    (h : m.doses_taken_date = some today) :
    (enrich_medication today m).med.doses_taken_today = m.doses_taken_today ∧
    (enrich_medication today m).med.doses_taken_date = some today ∧
    (enrich_medication today m).med.current_stock = m.current_stock ∧
    (enrich_medication today m).med.dose_per_intake = m.dose_per_intake ∧
    (enrich_medication today m).med.name = m.name := by
  simp only [enrich_medication, h]
  split_ifs <;> simp_all

/-- `enrich_medication` never changes the medication name. -/
theorem enrich_medication_name (today : String) (m : Medication) :
    (enrich_medication today m).med.name = m.name := by
  cases hd : m.doses_taken_date with
  | none =>
    simp only [enrich_medication, hd]
    split_ifs <;> rfl
  | some d =>
    simp only [enrich_medication, hd]
    split_ifs <;> rfl

end medication_service

/-! ### Claim C2 — stock adjustment on the two mark-dose paths -/

/-- C2 counterexample: on the dose-service path, marking the same
(medication, date, slot) dose as taken twice decrements `current_stock`
twice — from 10 to 9 and then to 8 — not exactly once. -/
theorem stock_double_decrement_counterexample :
    ((dose_service.mark_dose_taken
        { logs := [],
          meds := [{ id := "m1", user_id := "u1", name := "Aspirin", frequency := 2,
                     dose_per_intake := 1, current_stock := some 10,
                     total_stock := some 30, schedule_times := some ["08:00", "20:00"],
                     doses_taken_today := [],
                     doses_taken_date := some "2026-10-12" }] }
        "u1" "m1" "08:00" (some "08:05") "2026-10-12" 29100 "08:05").meds.map
      (·.current_stock)) = [some 9] ∧
    ((dose_service.mark_dose_taken
        (dose_service.mark_dose_taken
          { logs := [],
            meds := [{ id := "m1", user_id := "u1", name := "Aspirin", frequency := 2,
                       dose_per_intake := 1, current_stock := some 10,
                       total_stock := some 30, schedule_times := some ["08:00", "20:00"],
                       doses_taken_today := [],
                       doses_taken_date := some "2026-10-12" }] }
          "u1" "m1" "08:00" (some "08:05") "2026-10-12" 29100 "08:05")
        "u1" "m1" "08:00" (some "08:06") "2026-10-12" 29160 "08:06").meds.map
      (·.current_stock)) = [some 8] ∧
    (some (8 : Int) : Option Int) ≠ some 9 := by
  refine ⟨by decide, by decide, by decide⟩

/-- C2 (amended): the medication-service mark path is idempotent in stock —
a mark-taken call for a slot already recorded taken in the live per-day map
leaves `current_stock` unchanged; the dose-service mark path is not — every
successful call decrements stock by `dose_per_intake` (floored at 0)
regardless of the existing dose-log state. -/
theorem mark_dose_taken_stock_adjustment :
    (∀ (med : medication_service.Medication)
        (hist : List dose_history_service.DoseHistoryRecord)
        (u slot today : String) (n : Int),
      med.user_id = u →
      med.doses_taken_date = some today →
      (med.doses_taken_today.lookup slot).getD false = true →
      ((medication_service.mark_dose_taken { meds := [med], history := hist }
          u med.id slot true today n).meds.map (·.current_stock)) =
        [med.current_stock]) ∧
    (∀ (logs : List dose_service.DoseLog) (med : medication_service.Medication)
        (u slot today nowHM : String) (ta : Option String) (nowSec : Nat)
        (cs : Int) (st : DoseStatus × Int),
      med.user_id = u →
      med.current_stock = some cs →
      dose_service.calculate_dose_status slot nowSec (some (ta.getD nowHM)) = some st →
      ((dose_service.mark_dose_taken { logs := logs, meds := [med] }
          u med.id slot ta today nowSec nowHM).meds.map (·.current_stock)) =
        [some (max 0 (cs - med.dose_per_intake))]) := by
  constructor
  · intro med hist u slot today n hu hdate hslot
    obtain ⟨e1, e2, e3, e4, e5⟩ := medication_service.enrich_medication_today today med hdate
    cases hcs : med.current_stock with
    | none =>
      simp [medication_service.mark_dose_taken, medication_service.findMed,
        List.find?, hu, e1, e2, e3, e4, hslot, hcs, updateFirstBy]
    | some cs =>
      simp [medication_service.mark_dose_taken, medication_service.findMed,
        List.find?, hu, e1, e2, e3, e4, hslot, hcs, updateFirstBy]
  · intro logs med u slot today nowHM ta nowSec cs st hu hcs hst
    simp [dose_service.mark_dose_taken, hst, medication_service.findMed,
      List.find?, hu, hcs, updateFirstBy]

/-- Witness for the amended C2 theorem: a medication with its 08:00 slot
already taken keeps stock 9 on a repeated mark, and the dose-service path
decrements stock 10 to 9 on a call with an existing log. -/
theorem mark_dose_taken_stock_adjustment_witness :
    ((medication_service.mark_dose_taken
        { meds := [{ id := "m1", user_id := "u1", name := "Aspirin", frequency := 2,
                     dose_per_intake := 1, current_stock := some 9,
                     total_stock := some 30, schedule_times := some ["08:00", "20:00"],
                     doses_taken_today := [("08:00", true)],
                     doses_taken_date := some "2026-10-12" }],
          history := [] }
        "u1" "m1" "08:00" true "2026-10-12" 500).meds.map (·.current_stock)) =
      [some 9] ∧
    ((dose_service.mark_dose_taken
        { logs := [{ medication_id := "m1", user_id := "u1", date := "2026-10-12",
                     scheduled_time := "08:00", status := "taken",
                     taken_at := some "08:05", created_at := 29100 }],
          meds := [{ id := "m1", user_id := "u1", name := "Aspirin", frequency := 2,
                     dose_per_intake := 1, current_stock := some 10,
                     total_stock := some 30, schedule_times := some ["08:00", "20:00"],
                     doses_taken_today := [],
                     doses_taken_date := some "2026-10-12" }] }
        "u1" "m1" "08:00" (some "08:06") "2026-10-12" 29160 "08:06").meds.map
      (·.current_stock)) = [some (max 0 (10 - 1))] :=
  ⟨mark_dose_taken_stock_adjustment.1
      { id := "m1", user_id := "u1", name := "Aspirin", frequency := 2,
        dose_per_intake := 1, current_stock := some 9, total_stock := some 30,
        schedule_times := some ["08:00", "20:00"],
        doses_taken_today := [("08:00", true)],
        doses_taken_date := some "2026-10-12" } [] "u1" "08:00" "2026-10-12" 500
      rfl rfl (by decide),
   mark_dose_taken_stock_adjustment.2
      [{ medication_id := "m1", user_id := "u1", date := "2026-10-12",
         scheduled_time := "08:00", status := "taken", taken_at := some "08:05",
         created_at := 29100 }]
      { id := "m1", user_id := "u1", name := "Aspirin", frequency := 2,
        dose_per_intake := 1, current_stock := some 10, total_stock := some 30,
        schedule_times := some ["08:00", "20:00"], doses_taken_today := [],
        doses_taken_date := some "2026-10-12" }
      "u1" "08:00" "2026-10-12" "08:06" (some "08:06") 29160 10
      (DoseStatus.taken, 6) rfl rfl (by decide)⟩

/-! ### Claim C10 — un-marking writes a permanent missed record -/

/-- C10: a medication-service mark-dose call with `taken = false` upserts a
ledger entry for (medication, today, slot) with status `"missed"`, no actual
time and `was_late = false`, overwriting whatever entry (in particular a
`"taken"` one) the key held before. -/
theorem unmark_writes_missed_record (med : medication_service.Medication)
    (hist : List dose_history_service.DoseHistoryRecord)
    (u slot today : String) (n : Int)
    (hu : med.user_id = u)
    (hlen : (dose_history_service.entriesFor med.id today slot hist).length ≤ 1) :
    dose_history_service.entriesFor med.id today slot
        (medication_service.mark_dose_taken { meds := [med], history := hist }
          u med.id slot false today n).history =
      [dose_history_service.mkRecord
        { user_id := u, medication_id := med.id, medication_name := med.name,
          date := today, time_slot := slot, status := "missed",
          actual_time := none, notes := none, now := n }] ∧
    (dose_history_service.mkRecord
      { user_id := u, medication_id := med.id, medication_name := med.name,
        date := today, time_slot := slot, status := "missed",
        actual_time := none, notes := none, now := n }).status = "missed" ∧
    (dose_history_service.mkRecord
      { user_id := u, medication_id := med.id, medication_name := med.name,
        date := today, time_slot := slot, status := "missed",
        actual_time := none, notes := none, now := n }).actual_time = none ∧
    (dose_history_service.mkRecord
      { user_id := u, medication_id := med.id, medication_name := med.name,
        date := today, time_slot := slot, status := "missed",
        actual_time := none, notes := none, now := n }).was_late = false := by
  have hp : (med.id == med.id && med.user_id == u) = true := by simp [hu]
  have hname := medication_service.enrich_medication_name today med
  refine ⟨?_, rfl, rfl, ?_⟩
  · simp only [medication_service.mark_dose_taken, medication_service.findMed,
      List.find?, hp]
    rw [dose_history_service.entriesFor_log_same _ _ _ _ _
      (by simp [dose_history_service.eventKeyMatches]) hlen, hname]
    norm_num
  · simp [dose_history_service.mkRecord, dose_history_service.wasLateOf]

/-- Witness for the C10 theorem: un-marking the 08:00 slot over a ledger
already holding a taken entry for that key. -/
theorem unmark_writes_missed_record_witness :
    dose_history_service.entriesFor "m1" "2026-10-12" "08:00"
        (medication_service.mark_dose_taken
          { meds := [{ id := "m1", user_id := "u1", name := "Aspirin", frequency := 2,
                       dose_per_intake := 1, current_stock := some 9,
                       total_stock := some 30,
                       schedule_times := some ["08:00", "20:00"],
                       doses_taken_today := [("08:00", true)],
                       doses_taken_date := some "2026-10-12" }],
            history := [dose_history_service.mkRecord
              { user_id := "u1", medication_id := "m1", medication_name := "Aspirin",
                date := "2026-10-12", time_slot := "08:00", status := "taken",
                actual_time := some 1065897125, notes := none, now := 1065897125 }] }
          "u1" "m1" "08:00" false "2026-10-12" 1065897200).history =
      [dose_history_service.mkRecord
        { user_id := "u1", medication_id := "m1", medication_name := "Aspirin",
          date := "2026-10-12", time_slot := "08:00", status := "missed",
          actual_time := none, notes := none, now := 1065897200 }] :=
  (unmark_writes_missed_record
    { id := "m1", user_id := "u1", name := "Aspirin", frequency := 2,
      dose_per_intake := 1, current_stock := some 9, total_stock := some 30,
      schedule_times := some ["08:00", "20:00"],
      doses_taken_today := [("08:00", true)],
      doses_taken_date := some "2026-10-12" }
    [dose_history_service.mkRecord
      { user_id := "u1", medication_id := "m1", medication_name := "Aspirin",
        date := "2026-10-12", time_slot := "08:00", status := "taken",
        actual_time := some 1065897125, notes := none, now := 1065897125 }]
    "u1" "08:00" "2026-10-12" 1065897200 rfl (by decide)).1

/-! ### Claim C1 — day-rollover flush before reset -/

/-- C1: on the mark-dose path the stale day's live state is reset and
persisted with no ledger entry written for any slot of the stale date — the
medication had its 20:00 slot taken on 2026-10-11, yet after marking 08:00
taken on 2026-10-12 the ledger holds only today's event and the stored map
has been replaced, so the rollover reset happens without the required
flush. -/
theorem rollover_reset_without_flush :
    ((medication_service.mark_dose_taken
        { meds := [{ id := "m1", user_id := "u1", name := "Aspirin", frequency := 2,
                     dose_per_intake := 1, current_stock := some 10,
                     total_stock := some 30, schedule_times := some ["08:00", "20:00"],
                     doses_taken_today := [("20:00", true)],
                     doses_taken_date := some "2026-10-11" }],
          history := [] }
        "u1" "m1" "08:00" true "2026-10-12" 1065897125).meds.map
      (fun m => (m.doses_taken_today, m.doses_taken_date))) =
      [([("08:00", true)], some "2026-10-12")] ∧
    ((medication_service.mark_dose_taken
        { meds := [{ id := "m1", user_id := "u1", name := "Aspirin", frequency := 2,
                     dose_per_intake := 1, current_stock := some 10,
                     total_stock := some 30, schedule_times := some ["08:00", "20:00"],
                     doses_taken_today := [("20:00", true)],
                     doses_taken_date := some "2026-10-11" }],
          history := [] }
        "u1" "m1" "08:00" true "2026-10-12" 1065897125).history.filter
      (fun r => r.date == "2026-10-11")) = [] ∧
    ((medication_service.mark_dose_taken
        { meds := [{ id := "m1", user_id := "u1", name := "Aspirin", frequency := 2,
                     dose_per_intake := 1, current_stock := some 10,
                     total_stock := some 30, schedule_times := some ["08:00", "20:00"],
                     doses_taken_today := [("20:00", true)],
                     doses_taken_date := some "2026-10-11" }],
          history := [] }
        "u1" "m1" "08:00" true "2026-10-12" 1065897125).history.map
      (fun r => (r.date, r.time_slot, r.status))) =
      [("2026-10-12", "08:00", "taken")] := by
  refine ⟨by decide, by decide, by decide⟩

end HealthMate
